import Mathlib

/-!
Verification of the credit-gated generation and checkout-verification
handlers of the Upscale Imagery AI repository.

The serverless entry point api/index.js contains three concatenated
variants of the app. We embed:
* variant 1 (api/index.js lines 48-147): pre-decrement generate handler
  and the divergent verify-checkout mapping;
* variant 3 (api/index.js lines 412-588, duplicated in the unnamed
  serverless file): deduct-after-success generate handler and the
  common verify-checkout mapping;
* server.js: the standalone server whose generate handler rejects
  unauthenticated callers with 401.

JavaScript strings are Lean String, JavaScript undefined and null are
Option, and database and external-service effects are made explicit:
the database is a record holding the caller's profile row, and the
environment fixes the outcome of the auth lookup, the provider call,
the payment-session lookup and whether database updates succeed.
All string operations are re-implemented structurally over lists of
characters so that every definition evaluates by kernel reduction.
-/

/-- Does the pattern occur as a leading segment of the list (JavaScript
String.startsWith over characters). -/
def leadsWith : List Char → List Char → Bool
  | [], _ => true
  | _ :: _, [] => false
  | p :: ps, c :: cs => p = c && leadsWith ps cs

/-- Split at the first occurrence of the pattern: the characters before it
and the characters after it, or none when the pattern never occurs. -/
def findSplit (pat : List Char) : List Char → Option (List Char × List Char)
  | [] => if leadsWith pat [] then some ([], []) else none
  | c :: cs =>
    if leadsWith pat (c :: cs) then some ([], (c :: cs).drop pat.length)
    else (findSplit pat cs).map (fun p => (c :: p.1, p.2))

/-- JavaScript String.includes: the pattern occurs somewhere in the string. -/
def strIncludes (s pat : String) : Bool :=
  (findSplit pat.data s.data).isSome

/-- JavaScript String.replace with a plain-string pattern replaces only the
first occurrence; here with the empty replacement, as the code uses it to
strip a Bearer tag. -/
def replaceFirstWithEmpty (s pat : String) : String :=
  match findSplit pat.data s.data with
  | some p => ⟨p.1 ++ p.2⟩
  | none => s

/-- JavaScript truthiness of a possibly-absent string: undefined, null and
the empty string are falsy. -/
def jsFalsyStr : Option String → Bool
  | none => true
  | some s => s = ""

/-- A word character in the sense of the regex class used by the handlers. -/
def isWordChar (c : Char) : Bool :=
  c.isAlpha || c.isDigit || c = '_'

/-- The sanitisation step of the generate handlers: strip a leading
data-URI tag matching the anchored regex for data colon image slash,
one or more word characters, then the base64 marker and a comma.
When the input does not match, it is returned unchanged. -/
def stripDataUri (s : String) : String :=
  let tag := "data:image/".data
  if leadsWith tag s.data then
    let rest := s.data.drop tag.length
    let w := rest.takeWhile isWordChar
    let after := rest.drop w.length
    if w.length > 0 && leadsWith ";base64,".data after then
      ⟨after.drop (";base64,".data).length⟩
    else s
  else s

/-- Second element of a JavaScript split on a comma, as used by the
variant-1 handler to clean the image payload. -/
def splitComma1 (s : String) : String :=
  match findSplit [','] s.data with
  | some p => ⟨p.2.takeWhile (fun c => c != ',')⟩
  | none => s

-- Small sanity examples for the string helpers.
example : stripDataUri "data:image/jpeg;base64,QUJD" = "QUJD" := by decide
example : stripDataUri "data:image/png;base64,QUJD" = "QUJD" := by decide
example : stripDataUri "QUJD" = "QUJD" := by decide
example : strIncludes "Image too large" "too large" = true := by decide
example : strIncludes "RESOURCE_EXHAUSTED" "429" = false := by decide
example : replaceFirstWithEmpty "Bearer tok123" "Bearer " = "tok123" := by decide
example : splitComma1 "data:image/jpeg;base64,QUJD" = "QUJD" := by decide

/-! ## Data model -/

/-- One part of a provider response candidate: either inline image data or
free text (api/index.js, response.candidates parts). -/
inductive GemPart where
  | inlineData (data : String)
  | text (t : String)
deriving DecidableEq

/-- A successful provider response: the candidate parts (used by the
image-returning variants) and the derived text accessor (used by the
text-returning variants); none or the empty string model a missing text. -/
structure GemSuccess where
  parts : List GemPart
  text : Option String
deriving DecidableEq

/-- Outcome of the provider call: success, or a thrown error carrying an
HTTP-like status, a message, and the Express error type field. -/
inductive GemOutcome where
  | success (r : GemSuccess)
  | failure (status : Option Nat) (message : String) (etype : Option String)
deriving DecidableEq

/-- A checkout session as returned by the payment provider. -/
structure StripeSession where
  payment_status : String
  amount_total : Int
deriving DecidableEq

/-- The caller's profile row of the profiles table: none models a missing
row, otherwise the stored credit balance. -/
structure Db where
  credits : Option Int
deriving DecidableEq

/-- The external world a single request runs against: the resolved AI API
key, the auth lookup mapping a token to a user id, the fixed outcome of
the provider call, the payment-session lookup result (none models a
thrown provider error), and whether database update statements succeed. -/
structure Env where
  apiKey : Option String
  userOf : String → Option String
  gemini : GemOutcome
  session : Option StripeSession
  updateOk : Bool

/-- Body and header of a generate request; none models an absent field. -/
structure GenReq where
  imageBase64 : Option String
  prompt : Option String
  authHeader : Option String
deriving DecidableEq

/-- Body and header of a verify-checkout request. -/
structure CheckReq where
  sessionId : Option String
  authHeader : Option String
deriving DecidableEq

/-- The observable outcome of a generate request: HTTP status, the success
flag, the returned image, message, error and remainingCredits fields of
the JSON body, the final database state, whether the generation provider
was invoked, how many credit-balance reads were issued, and the list of
credit values successfully written. -/
structure GenResult where
  status : Nat
  db : Db
  ok : Bool := false
  image : Option String := none
  message : Option String := none
  error : Option String := none
  remainingCredits : Option Int := none
  providerCalled : Bool := false
  creditReads : Nat := 0
  creditWrites : List Int := []
deriving DecidableEq

/-- The observable outcome of a verify-checkout request. -/
structure CheckoutResult where
  status : Nat
  db : Db
  ok : Bool := false
  addedCredits : Option Int := none
  error : Option String := none
  creditWrites : List Int := []
deriving DecidableEq

/-- A database update of the caller's credits: a supabase update with an
id filter changes the row only when it exists. -/
def dbWrite (db : Db) (v : Int) : Db :=
  { credits := db.credits.map (fun _ => v) }

/-! ## Authentication helpers -/

/-- getAuthenticatedUser of api/index.js: a missing, empty, Bearer null or
Bearer undefined header is an anonymous caller; otherwise the first
Bearer tag is stripped and the remaining token is looked up, an empty
token short-circuiting to anonymous. -/
def getAuthenticatedUser (env : Env) (authHeader : Option String) : Option String :=
  match authHeader with
  | none => none
  | some h =>
    if h = "" || h = "Bearer null" || h = "Bearer undefined" then none
    else
      let token := replaceFirstWithEmpty h "Bearer "
      if token = "" then none
      else env.userOf token

/-- getAuthenticatedUser of server.js: only a missing or empty header is
anonymous; the stripped token is always looked up. -/
def getAuthenticatedUserServer (env : Env) (authHeader : Option String) : Option String :=
  match authHeader with
  | none => none
  | some h =>
    if h = "" then none
    else env.userOf (replaceFirstWithEmpty h "Bearer ")

/-! ## Variant 3 of the generate handler (api/index.js lines 412-560,
duplicated in the unnamed serverless entry point): validate payload,
check credits, sanitise, call the provider, deduct after success. -/

/-- The provider-error mapping of variant 3 (api/index.js lines 493-519)
continued into the outer catch (lines 548-559): keyword matches on the
raised message choose a fixed user-facing response; an unmatched error is
re-thrown to the outer handler, which answers 413 when the error is an
entity-too-large error or mentions a too-large payload, and 500 with the
raised message (or a generic one when it is empty) otherwise. -/
def mapGeminiError (msg : String) (etype : Option String) : Nat × String :=
  if strIncludes msg "400" || strIncludes msg "INVALID_ARGUMENT" then
    (400, "The AI could not process this image. It may be too complex or in an unsupported format.")
  else if strIncludes msg "403" || strIncludes msg "PERMISSION_DENIED" then
    (500, "AI Service authentication failed.")
  else if strIncludes msg "429" || strIncludes msg "RESOURCE_EXHAUSTED" then
    (503, "System is currently at capacity. Please try again in a minute.")
  else if strIncludes msg "500" || strIncludes msg "INTERNAL" then
    (502, "AI Service experienced an internal error. Please try again.")
  else if strIncludes msg "503" || strIncludes msg "UNAVAILABLE" then
    (503, "AI Service is temporarily unavailable. Please try again.")
  else if strIncludes msg "SAFETY" || strIncludes msg "BLOCKED" then
    (400, "The request was blocked by safety filters. Please modify your image or prompt.")
  else if etype = some "entity.too.large" || strIncludes msg "too large" then
    (413, "The image is too large. Please upload a smaller file (under 4MB).")
  else
    (500, if msg = "" then "An unexpected system error occurred." else msg)

/-- Step 7 and 8 of variant 3: after a successful provider call, an
authenticated caller's balance is re-read and decremented by one when
positive; a failing decrement is only logged; then the 200 response with
the re-prefixed image and the generated text is returned. -/
def genV3Deduct (env : Env) (db : Db) (user : Option String) (reads : Nat)
    (base64Data text : String) : GenResult :=
  let img := some ("data:image/jpeg;base64," ++ base64Data)
  match user with
  | none =>
    { status := 200, ok := true, image := img, message := some text,
      db := db, providerCalled := true, creditReads := reads }
  | some _ =>
    match db.credits with
    | some c =>
      if c > 0 then
        if env.updateOk then
          { status := 200, ok := true, image := img, message := some text,
            db := dbWrite db (c - 1), providerCalled := true,
            creditReads := reads + 1, creditWrites := [c - 1] }
        else
          { status := 200, ok := true, image := img, message := some text,
            db := db, providerCalled := true, creditReads := reads + 1 }
      else
        { status := 200, ok := true, image := img, message := some text,
          db := db, providerCalled := true, creditReads := reads + 1 }
    | none =>
      { status := 200, ok := true, image := img, message := some text,
        db := db, providerCalled := true, creditReads := reads + 1 }

/-- Step 6 of variant 3: the provider call; a response without text is
thrown as an empty-response error and travels through the same error
mapping as a provider failure. -/
def genV3Provider (env : Env) (db : Db) (user : Option String) (reads : Nat)
    (base64Data : String) : GenResult :=
  match env.gemini with
  | .failure _ msg ty =>
    let m := mapGeminiError msg ty
    { status := m.1, error := some m.2, db := db,
      providerCalled := true, creditReads := reads }
  | .success r =>
    if jsFalsyStr r.text then
      let m := mapGeminiError "AI returned an empty response." none
      { status := m.1, error := some m.2, db := db,
        providerCalled := true, creditReads := reads }
    else
      genV3Deduct env db user reads base64Data (r.text.getD "")

/-- Step 5 of variant 3: strip the data-URI tag and reject an empty or
implausibly short payload with 400. -/
def genV3Sanitize (env : Env) (req : GenReq) (db : Db) (user : Option String)
    (reads : Nat) : GenResult :=
  let base64Data := stripDataUri (req.imageBase64.getD "")
  if base64Data.length < 100 then
    { status := 400, error := some "Invalid image data. The file may be corrupted.",
      db := db, creditReads := reads }
  else
    genV3Provider env db user reads base64Data

/-- Steps 3 and 4 of variant 3: resolve the caller and, when
authenticated, read the balance, answering 404 for a missing profile and
403 for a non-positive balance. -/
def genV3Credits (env : Env) (req : GenReq) (db : Db) : GenResult :=
  match getAuthenticatedUser env req.authHeader with
  | none => genV3Sanitize env req db none 0
  | some uid =>
    match db.credits with
    | none =>
      { status := 404, error := some "User profile not found.", db := db, creditReads := 1 }
    | some c =>
      if c < 1 then
        { status := 403, error := some "Insufficient credits. Please upgrade or buy a pack.",
          db := db, creditReads := 1 }
      else
        genV3Sanitize env req db (some uid) 1

/-- The whole variant-3 generate handler: payload validation, API-key
check, then the credit, sanitisation, provider and deduction steps. -/
def generateV3 (env : Env) (req : GenReq) (db : Db) : GenResult :=
  if jsFalsyStr req.imageBase64 then
    { status := 400, error := some "No image provided.", db := db }
  else if jsFalsyStr req.prompt then
    { status := 400, error := some "No prompt provided.", db := db }
  else if jsFalsyStr env.apiKey then
    { status := 500, error := some "Service configuration error. Please contact support.", db := db }
  else
    genV3Credits env req db

/-! ## Variant 1 of the generate handler (api/index.js lines 48-121):
no payload validation, pre-decrement of the balance, refund in the catch
block on any thrown error. -/

/-- The catch block of variant 1: when the caller was authenticated and a
profile had been read, its originally read balance is written back
(fire and forget), then a 500 with the thrown message is returned. -/
def genV1Catch (env : Env) (db : Db) (orig : Option Int) (reads : Nat)
    (writes : List Int) (pc : Bool) (msg : String) : GenResult :=
  match orig with
  | some c =>
    if env.updateOk then
      { status := 500, error := some msg, db := dbWrite db c,
        providerCalled := pc, creditReads := reads, creditWrites := writes ++ [c] }
    else
      { status := 500, error := some msg, db := db,
        providerCalled := pc, creditReads := reads, creditWrites := writes }
  | none =>
    { status := 500, error := some msg, db := db,
      providerCalled := pc, creditReads := reads, creditWrites := writes }

/-- The provider step of variant 1: reading a property of a missing
imageBase64 throws; a provider failure is thrown to the catch block; on
success every inline part overwrites the image (keeping the last) and the
text parts are concatenated, an absent image silently falling back to the
original payload with a success response. -/
def genV1Gen (env : Env) (req : GenReq) (db : Db) (orig : Option Int)
    (reads : Nat) (writes : List Int) : GenResult :=
  match req.imageBase64 with
  | none =>
    genV1Catch env db orig reads writes false "Cannot read properties of undefined"
  | some img =>
    match env.gemini with
    | .failure _ msg _ =>
      genV1Catch env db orig reads writes true (if msg = "" then "Generation Failed" else msg)
    | .success r =>
      let generatedImage := (r.parts.filterMap (fun p =>
        match p with
        | .inlineData d => some d
        | .text _ => none)).getLast?
      let messageText := String.join (r.parts.filterMap (fun p =>
        match p with
        | .inlineData _ => none
        | .text t => some t))
      let finalImage := match generatedImage with
        | some d => "data:image/jpeg;base64," ++ d
        | none => img
      { status := 200, ok := true, image := some finalImage,
        message := some messageText, db := db, providerCalled := true,
        creditReads := reads, creditWrites := writes }

/-- The whole variant-1 generate handler: auth, API-key check, then for an
authenticated caller read the balance, reject a missing profile or a
balance below one with 403, pre-decrement (a failing decrement throwing
into the catch block), and only then call the provider. -/
def generateV1 (env : Env) (req : GenReq) (db : Db) : GenResult :=
  let user := getAuthenticatedUser env req.authHeader
  if jsFalsyStr env.apiKey then
    { status := 500, error := some "Server GEMINI_API_KEY missing", db := db }
  else
    match user with
    | none => genV1Gen env req db none 0 []
    | some _ =>
      match db.credits with
      | none =>
        { status := 403, error := some "Insufficient credits. Please upgrade or buy a pack.",
          db := db, creditReads := 1 }
      | some c =>
        if c < 1 then
          { status := 403, error := some "Insufficient credits. Please upgrade or buy a pack.",
            db := db, creditReads := 1 }
        else
          if env.updateOk then
            genV1Gen env req (dbWrite db (c - 1)) (some c) 1 [c - 1]
          else
            genV1Catch env db (some c) 1 [] false "Credit deduction failed"

/-! ## The generate handler of server.js (lines 70-157): unauthenticated
callers are rejected with 401; the balance is pre-decremented; a missing
generated image is refunded, a thrown provider error is not. -/

/-- The generate handler of server.js. -/
def generateServer (env : Env) (req : GenReq) (db : Db) : GenResult :=
  match getAuthenticatedUserServer env req.authHeader with
  | none =>
    { status := 401, error := some "Unauthorized. Please log in.", db := db }
  | some _ =>
    if jsFalsyStr env.apiKey then
      { status := 500, error := some "Server misconfiguration: API Key missing", db := db }
    else
      match db.credits with
      | none =>
        { status := 500, error := some "Failed to retrieve user profile.", db := db, creditReads := 1 }
      | some c =>
        if c < 1 then
          { status := 403, error := some "Insufficient credits. Please upgrade your plan.",
            db := db, creditReads := 1 }
        else if !env.updateOk then
          { status := 500, error := some "Failed to process credits.", db := db, creditReads := 1 }
        else
          let db1 := dbWrite db (c - 1)
          match req.imageBase64 with
          | none =>
            { status := 500, error := some "Cannot read properties of undefined",
              db := db1, creditReads := 1, creditWrites := [c - 1] }
          | some _ =>
            match env.gemini with
            | .failure _ msg _ =>
              { status := 500,
                error := some (if msg = "" then "Failed to generate image" else msg),
                db := db1, providerCalled := true, creditReads := 1, creditWrites := [c - 1] }
            | .success r =>
              match (r.parts.filterMap (fun p =>
                match p with
                | .inlineData d => some d
                | .text _ => none)).head? with
              | some d =>
                { status := 200, ok := true,
                  image := some ("data:image/jpeg;base64," ++ d),
                  remainingCredits := some (c - 1), db := db1, providerCalled := true,
                  creditReads := 1, creditWrites := [c - 1] }
              | none =>
                { status := 500, error := some "AI failed to generate image.",
                  db := dbWrite db1 c, providerCalled := true,
                  creditReads := 1, creditWrites := [c - 1, c] }

/-! ## The verify-checkout handlers -/

/-- The verify-checkout handler skeleton shared by every variant, taking
the amount-to-credits mapping as a parameter: reject a missing caller or
session id with 400, a session lookup failure with 500, a non-paid
session with 400; otherwise read the current balance (a missing row
counting as zero) and write the sum of it and the granted credits. -/
def verifyCheckoutWith (priceMap : Int → Int) (env : Env) (req : CheckReq)
    (db : Db) : CheckoutResult :=
  match getAuthenticatedUser env req.authHeader with
  | none => { status := 400, error := some "Invalid request", db := db }
  | some _ =>
    if jsFalsyStr req.sessionId then
      { status := 400, error := some "Invalid request", db := db }
    else
      match env.session with
      | none => { status := 500, error := some "Verification failed", db := db }
      | some s =>
        if s.payment_status != "paid" then
          { status := 400, error := some "Not paid", db := db }
        else
          let creditsToAdd := priceMap s.amount_total
          let currentCredits := db.credits.getD 0
          if env.updateOk then
            { status := 200, ok := true, addedCredits := some creditsToAdd,
              db := dbWrite db (currentCredits + creditsToAdd),
              creditWrites := [currentCredits + creditsToAdd] }
          else
            { status := 200, ok := true, addedCredits := some creditsToAdd, db := db }

/-- The amount-to-credits mapping of verify-checkout variant 2
(api/index.js lines 352-359, duplicated at lines 571-578 and in the
unnamed serverless entry point); unrecognised amounts grant zero. -/
def priceMapV2 (amountTotal : Int) : Int :=
  if amountTotal = 399 then 5
  else if amountTotal = 999 then 25
  else if amountTotal = 1999 then 50
  else if amountTotal = 3499 then 100
  else 0

/-- The divergent amount-to-credits mapping of verify-checkout variant 1
(api/index.js lines 132-137) and of server.js lines 180-187. -/
def priceMapV1 (amountTotal : Int) : Int :=
  if amountTotal = 399 then 5
  else if amountTotal = 999 then 50
  else if amountTotal = 1999 then 100
  else if amountTotal = 2999 then 200
  else 0

/-- Verify-checkout variant 2: the most common mapping. -/
def verifyCheckoutV2 (env : Env) (req : CheckReq) (db : Db) : CheckoutResult :=
  verifyCheckoutWith priceMapV2 env req db

/-- Verify-checkout variant 1: the divergent mapping. -/
def verifyCheckoutV1 (env : Env) (req : CheckReq) (db : Db) : CheckoutResult :=
  verifyCheckoutWith priceMapV1 env req db

/-! ## Helper lemmas and concrete fixtures -/

/-- A missing header, a Bearer null header and a Bearer undefined header
all resolve to the anonymous caller. -/
theorem getAuthenticatedUser_invalid (env : Env) (h : Option String)
    (hh : h = none ∨ h = some "Bearer null" ∨ h = some "Bearer undefined") :
    getAuthenticatedUser env h = none := by
  rcases hh with h1 | h1 | h1 <;> subst h1 <;> simp [getAuthenticatedUser]

/-- Every response of the deduction step carries the sanitised payload
re-prefixed with the fixed jpeg data-URI tag. -/
theorem genV3Deduct_image (env : Env) (db : Db) (user : Option String)
    (reads : Nat) (b64 t : String) :
    (genV3Deduct env db user reads b64 t).image
      = some ("data:image/jpeg;base64," ++ b64) := by
  unfold genV3Deduct
  rcases user with _ | u
  · rfl
  · rcases h : db.credits with _ | c
    · simp [h]
    · by_cases hc : c > 0 <;> by_cases hup : env.updateOk = true <;>
        simp [h, hc, hup]

/-- The status chosen by the provider-error mapping always lies in the
six-element status set. -/
theorem mapGeminiError_status_mem (msg : String) (ty : Option String) :
    (mapGeminiError msg ty).1 ∈ ([400, 413, 429, 500, 502, 503] : List Nat) := by
  unfold mapGeminiError
  split_ifs <;> simp

/-- Fixture: the auth lookup accepting one token. -/
def wUserOf : String → Option String :=
  fun t => if t = "tok" then some "uid" else none

/-- Fixture: a plausible 100-character base64 payload. -/
def wPayload : String := ⟨List.replicate 100 'A'⟩

/-- Fixture: a successful provider response with text. -/
def wOkGem : GemOutcome := .success { parts := [], text := some "described edit" }

/-- Fixture environment builder. -/
def mkEnv (g : GemOutcome) (s : Option StripeSession) (up : Bool) : Env :=
  { apiKey := some "k", userOf := wUserOf, gemini := g, session := s, updateOk := up }

/-- Fixture: an authenticated generate request with a valid payload. -/
def wReqAuth : GenReq :=
  { imageBase64 := some ("data:image/jpeg;base64," ++ wPayload),
    prompt := some "add a blue jacket", authHeader := some "Bearer tok" }

/-- Fixture: a guest generate request with a valid payload. -/
def wReqGuest : GenReq :=
  { imageBase64 := some ("data:image/jpeg;base64," ++ wPayload),
    prompt := some "add a blue jacket", authHeader := none }

/-! ## The claims -/

/-- C3: for an authenticated variant-3 generate request with a valid
payload and a non-positive stored balance, the handler answers 403,
does not invoke the provider, writes nothing and leaves the database
unchanged. -/
theorem c3_zero_balance_403 (env : Env) (req : GenReq) (db : Db)
    (uid : String) (b : Int)
    (himg : jsFalsyStr req.imageBase64 = false)
    (hpr : jsFalsyStr req.prompt = false)
    (hkey : jsFalsyStr env.apiKey = false)
    (hauth : getAuthenticatedUser env req.authHeader = some uid)
    (hb : db.credits = some b) (hble : b ≤ 0) :
    (generateV3 env req db).status = 403 ∧
    (generateV3 env req db).providerCalled = false ∧
    (generateV3 env req db).creditWrites = [] ∧
    (generateV3 env req db).db = db := by
  have hlt : b < 1 := by omega
  simp [generateV3, genV3Credits, himg, hpr, hkey, hauth, hb, hlt]

/-- C3 witness: a concrete authenticated caller with balance zero. -/
theorem c3_zero_balance_403_witness :
    jsFalsyStr wReqAuth.imageBase64 = false ∧
    jsFalsyStr wReqAuth.prompt = false ∧
    jsFalsyStr (mkEnv wOkGem none true).apiKey = false ∧
    getAuthenticatedUser (mkEnv wOkGem none true) wReqAuth.authHeader = some "uid" ∧
    (Db.mk (some 0)).credits = some 0 ∧ (0 : Int) ≤ 0 ∧
    (generateV3 (mkEnv wOkGem none true) wReqAuth (Db.mk (some 0))).status = 403 ∧
    (generateV3 (mkEnv wOkGem none true) wReqAuth (Db.mk (some 0))).providerCalled = false := by
  refine ⟨by decide, by decide, by decide, by decide, by decide, by decide, ?_, ?_⟩
  · exact (c3_zero_balance_403 (mkEnv wOkGem none true) wReqAuth (Db.mk (some 0))
      "uid" 0 (by decide) (by decide) (by decide) (by decide) (by decide) (by decide)).1
  · exact (c3_zero_balance_403 (mkEnv wOkGem none true) wReqAuth (Db.mk (some 0))
      "uid" 0 (by decide) (by decide) (by decide) (by decide) (by decide) (by decide)).2.1

/-- C1: for an authenticated caller with a stored balance of at least one,
a valid payload and working database writes, a generate request whose
provider call succeeds leaves the balance decremented by exactly one and
answers 200, and one whose provider call fails leaves the balance
unchanged; this holds for the deduct-after-success variant 3 and, in net
effect through its pre-decrement and refund, for variant 1 as well. -/
theorem c1_debit_on_success_only (env : Env) (req : GenReq) (db : Db)
    (uid img : String) (b : Int)
    (himg : req.imageBase64 = some img)
    (hne : ¬ img = "")
    (hpr : jsFalsyStr req.prompt = false)
    (hkey : jsFalsyStr env.apiKey = false)
    (hauth : getAuthenticatedUser env req.authHeader = some uid)
    (hb : db.credits = some b) (hb1 : 1 ≤ b)
    (hup : env.updateOk = true)
    (hlen : ¬ (stripDataUri img).length < 100) :
    (∀ r t, env.gemini = .success r → r.text = some t → ¬ t = "" →
      (generateV3 env req db).db.credits = some (b - 1) ∧
      (generateV3 env req db).status = 200 ∧
      (generateV1 env req db).db.credits = some (b - 1) ∧
      (generateV1 env req db).status = 200) ∧
    (∀ st msg ty, env.gemini = .failure st msg ty →
      (generateV3 env req db).db.credits = some b ∧
      (generateV1 env req db).db.credits = some b) := by
  have hnl : ¬ b < 1 := by omega
  have hpos : (0 : Int) < b := by omega
  have himgf : jsFalsyStr (some img) = false := by simp [jsFalsyStr, hne]
  constructor
  · intro r t hg ht htne
    have htf : jsFalsyStr (some t) = false := by simp [jsFalsyStr, htne]
    refine ⟨?_, ?_, ?_, ?_⟩ <;>
      simp [generateV3, genV3Credits, genV3Sanitize, genV3Provider, genV3Deduct,
        generateV1, genV1Gen, dbWrite, himgf, himg, hpr, hkey, hauth,
        hb, hg, ht, htf, hup, hlen, hnl, hpos]
  · intro st msg ty hg
    constructor <;>
      simp [generateV3, genV3Credits, genV3Sanitize, genV3Provider,
        generateV1, genV1Gen, genV1Catch, dbWrite, himgf, himg, hpr,
        hkey, hauth, hb, hg, hup, hlen, hnl, hpos]

/-- C1 witness: a concrete caller with balance 3; after a successful
provider call the balance is 2, after a failing one it is 3. -/
theorem c1_debit_on_success_only_witness :
    wReqAuth.imageBase64 = some ("data:image/jpeg;base64," ++ wPayload) ∧
    ¬ ("data:image/jpeg;base64," ++ wPayload) = "" ∧
    (Db.mk (some 3)).credits = some 3 ∧ (1 : Int) ≤ 3 ∧
    (mkEnv wOkGem none true).updateOk = true ∧
    ¬ (stripDataUri ("data:image/jpeg;base64," ++ wPayload)).length < 100 ∧
    (generateV3 (mkEnv wOkGem none true) wReqAuth (Db.mk (some 3))).db.credits = some 2 ∧
    (generateV3 (mkEnv (.failure (some 503) "UNAVAILABLE" none) none true) wReqAuth
      (Db.mk (some 3))).db.credits = some 3 := by
  refine ⟨by decide, by decide, by decide, by decide, by decide, by decide, ?_, ?_⟩
  · have h := (c1_debit_on_success_only (mkEnv wOkGem none true) wReqAuth (Db.mk (some 3))
      "uid" ("data:image/jpeg;base64," ++ wPayload) 3 (by decide) (by decide) (by decide)
      (by decide) (by decide) (by decide) (by decide) (by decide) (by decide)).1
      { parts := [], text := some "described edit" } "described edit"
      (by decide) (by decide) (by decide)
    exact h.1
  · have h := (c1_debit_on_success_only (mkEnv (.failure (some 503) "UNAVAILABLE" none) none true)
      wReqAuth (Db.mk (some 3)) "uid" ("data:image/jpeg;base64," ++ wPayload) 3
      (by decide) (by decide) (by decide) (by decide) (by decide) (by decide)
      (by decide) (by decide) (by decide)).2
      (some 503) "UNAVAILABLE" none (by decide)
    exact h.1

/-- C8: when the provider call succeeds but the credit-decrement write
fails, the variant-3 handler still answers 200 with the image, the
failure is not surfaced, and the stored balance is left as it was. -/
theorem c8_update_failure_still_200 (env : Env) (req : GenReq) (db : Db)
    (uid img : String) (b : Int) (r : GemSuccess) (t : String)
    (himg : req.imageBase64 = some img)
    (hne : ¬ img = "")
    (hpr : jsFalsyStr req.prompt = false)
    (hkey : jsFalsyStr env.apiKey = false)
    (hauth : getAuthenticatedUser env req.authHeader = some uid)
    (hb : db.credits = some b) (hb1 : 1 ≤ b)
    (hup : env.updateOk = false)
    (hlen : ¬ (stripDataUri img).length < 100)
    (hg : env.gemini = .success r) (ht : r.text = some t) (htne : ¬ t = "") :
    (generateV3 env req db).status = 200 ∧
    (generateV3 env req db).ok = true ∧
    (generateV3 env req db).image = some ("data:image/jpeg;base64," ++ stripDataUri img) ∧
    (generateV3 env req db).error = none ∧
    (generateV3 env req db).db = db ∧
    (generateV3 env req db).creditWrites = [] := by
  have hnl : ¬ b < 1 := by omega
  have hpos : (0 : Int) < b := by omega
  have himgf : jsFalsyStr (some img) = false := by simp [jsFalsyStr, hne]
  have htf : jsFalsyStr (some t) = false := by simp [jsFalsyStr, htne]
  refine ⟨?_, ?_, ?_, ?_, ?_, ?_⟩ <;>
    simp [generateV3, genV3Credits, genV3Sanitize, genV3Provider, genV3Deduct,
      himgf, himg, hpr, hkey, hauth, hb, hg, ht, htf, hup, hlen, hnl, hpos]

/-- C8 witness: a concrete caller with balance 3 and a failing write still
receives 200 and keeps balance 3. -/
theorem c8_update_failure_still_200_witness :
    (mkEnv wOkGem none false).updateOk = false ∧
    (generateV3 (mkEnv wOkGem none false) wReqAuth (Db.mk (some 3))).status = 200 ∧
    (generateV3 (mkEnv wOkGem none false) wReqAuth (Db.mk (some 3))).db = Db.mk (some 3) := by
  have h := c8_update_failure_still_200 (mkEnv wOkGem none false) wReqAuth (Db.mk (some 3))
    "uid" ("data:image/jpeg;base64," ++ wPayload) 3
    { parts := [], text := some "described edit" } "described edit"
    (by decide) (by decide) (by decide) (by decide) (by decide) (by decide)
    (by decide) (by decide) (by decide) (by decide) (by decide) (by decide)
  exact ⟨by decide, h.1, h.2.2.2.2.1⟩





/-- C5 counterexample: the server.js generate handler rejects a request
without an Authorization header with 401 instead of processing it as a
guest, even with a valid image, prompt and a succeeding provider. -/
theorem c5_guest_rejected_server_cex :
    (generateServer (mkEnv wOkGem none true) wReqGuest (Db.mk (some 3))).status = 401 ∧
    (generateServer (mkEnv wOkGem none true) wReqGuest (Db.mk (some 3))).ok = false ∧
    ¬ (generateServer (mkEnv wOkGem none true) wReqGuest (Db.mk (some 3))).status = 200 := by
  decide

/-- C5 amended: the serverless variant-3 handler treats an absent, Bearer
null or Bearer undefined credential as an anonymous guest: with a valid
image and prompt and a succeeding provider it answers 200 with
success true and an image, reading and writing no credit balance; the
standalone server.js handler instead rejects such requests with 401. -/
theorem c5_guest_allowed_v3 (env : Env) (req : GenReq) (db : Db)
    (img : String) (r : GemSuccess) (t : String)
    (hhdr : req.authHeader = none ∨ req.authHeader = some "Bearer null" ∨
      req.authHeader = some "Bearer undefined")
    (himg : req.imageBase64 = some img) (hne : ¬ img = "")
    (hpr : jsFalsyStr req.prompt = false)
    (hkey : jsFalsyStr env.apiKey = false)
    (hlen : ¬ (stripDataUri img).length < 100)
    (hg : env.gemini = .success r) (ht : r.text = some t) (htne : ¬ t = "") :
    (generateV3 env req db).status = 200 ∧
    (generateV3 env req db).ok = true ∧
    (generateV3 env req db).image = some ("data:image/jpeg;base64," ++ stripDataUri img) ∧
    (generateV3 env req db).message = some t ∧
    (generateV3 env req db).creditReads = 0 ∧
    (generateV3 env req db).creditWrites = [] ∧
    (generateV3 env req db).db = db := by
  have hauth := getAuthenticatedUser_invalid env req.authHeader hhdr
  have himgf : jsFalsyStr (some img) = false := by simp [jsFalsyStr, hne]
  have htf : jsFalsyStr (some t) = false := by simp [jsFalsyStr, htne]
  refine ⟨?_, ?_, ?_, ?_, ?_, ?_, ?_⟩ <;>
    simp [generateV3, genV3Credits, genV3Sanitize, genV3Provider, genV3Deduct,
      himgf, himg, hpr, hkey, hauth, hg, ht, htf, hlen]

/-- C5 witness: the concrete guest scenario of the spec, with a jpeg
data-URI payload and no Authorization header. -/
theorem c5_guest_allowed_v3_witness :
    wReqGuest.authHeader = none ∧
    (generateV3 (mkEnv wOkGem none true) wReqGuest (Db.mk (some 3))).status = 200 ∧
    (generateV3 (mkEnv wOkGem none true) wReqGuest (Db.mk (some 3))).ok = true ∧
    (generateV3 (mkEnv wOkGem none true) wReqGuest (Db.mk (some 3))).creditReads = 0 := by
  have h := c5_guest_allowed_v3 (mkEnv wOkGem none true) wReqGuest (Db.mk (some 3))
    ("data:image/jpeg;base64," ++ wPayload)
    { parts := [], text := some "described edit" } "described edit"
    (Or.inl (by decide)) (by decide) (by decide) (by decide) (by decide)
    (by decide) (by decide) (by decide) (by decide)
  exact ⟨by decide, h.1, h.2.1, h.2.2.2.2.1⟩

/-- C6 counterexample: a png data-URI payload is returned re-prefixed with
the fixed jpeg tag, not with its own declared mime type. -/
theorem c6_mime_roundtrip_cex :
    (generateV3 (mkEnv wOkGem none true)
      { imageBase64 := some ("data:image/png;base64," ++ wPayload),
        prompt := some "p", authHeader := none }
      (Db.mk (some 3))).image = some ("data:image/jpeg;base64," ++ wPayload) ∧
    ¬ (generateV3 (mkEnv wOkGem none true)
      { imageBase64 := some ("data:image/png;base64," ++ wPayload),
        prompt := some "p", authHeader := none }
      (Db.mk (some 3))).image = some ("data:image/png;base64," ++ wPayload) := by
  decide

/-- C6 amended: the variant-3 handler always returns the stripped payload
re-prefixed with the fixed jpeg data-URI tag, whatever mime type the
input declared; the round-trip of the full string therefore holds exactly
when the input declared image slash jpeg. -/
theorem c6_image_reattached_as_jpeg (env : Env) (req : GenReq) (db : Db)
    (img payload : String) (r : GemSuccess) (t : String)
    (himg : req.imageBase64 = some img) (hne : ¬ img = "")
    (hpr : jsFalsyStr req.prompt = false)
    (hkey : jsFalsyStr env.apiKey = false)
    (hstrip : stripDataUri img = payload)
    (hlen : ¬ payload.length < 100)
    (hpath : getAuthenticatedUser env req.authHeader = none ∨
      ∃ uid c, getAuthenticatedUser env req.authHeader = some uid ∧
        db.credits = some c ∧ 1 ≤ c)
    (hg : env.gemini = .success r) (ht : r.text = some t) (htne : ¬ t = "") :
    (generateV3 env req db).image = some ("data:image/jpeg;base64," ++ payload) := by
  have himgf : jsFalsyStr (some img) = false := by simp [jsFalsyStr, hne]
  have htf : jsFalsyStr (some t) = false := by simp [jsFalsyStr, htne]
  have hlen' : ¬ (stripDataUri img).length < 100 := by rw [hstrip]; exact hlen
  rcases hpath with hauth | ⟨uid, c, hauth, hc, hc1⟩
  · simp [generateV3, genV3Credits, genV3Sanitize, genV3Provider, himgf, himg,
      hpr, hkey, hauth, hg, ht, htf, hlen, hlen', hstrip, genV3Deduct_image]
  · have hnl : ¬ c < 1 := by omega
    simp [generateV3, genV3Credits, genV3Sanitize, genV3Provider, himgf, himg,
      hpr, hkey, hauth, hc, hnl, hg, ht, htf, hlen, hlen', hstrip, genV3Deduct_image]

/-- C6 witness: a jpeg-declared input round-trips to exactly itself. -/
theorem c6_image_reattached_as_jpeg_witness :
    stripDataUri ("data:image/jpeg;base64," ++ wPayload) = wPayload ∧
    (generateV3 (mkEnv wOkGem none true) wReqGuest (Db.mk (some 3))).image
      = some ("data:image/jpeg;base64," ++ wPayload) := by
  refine ⟨by decide, ?_⟩
  exact c6_image_reattached_as_jpeg (mkEnv wOkGem none true) wReqGuest (Db.mk (some 3))
    ("data:image/jpeg;base64," ++ wPayload) wPayload
    { parts := [], text := some "described edit" } "described edit"
    (by decide) (by decide) (by decide) (by decide) (by decide) (by decide)
    (Or.inl (by decide)) (by decide) (by decide) (by decide)

/-- C7 counterexample: a provider error whose message matches none of the
mapping keywords but mentions a too-large payload is answered 413, a
status outside the set the claim names. -/
theorem c7_provider_error_413_cex :
    (generateV3 (mkEnv (.failure none "Image too large" none) none true)
      wReqGuest (Db.mk (some 3))).status = 413 ∧
    ¬ (413 : Nat) ∈ ([400, 429, 500, 502, 503] : List Nat) := by
  constructor
  · decide
  · decide

/-- C7 amended: every provider error of a variant-3 generate request is
mapped by keyword matching to a fixed user-facing response whose status
lies in the set of 400, 413, 429, 500, 502 and 503, the 413 arising for
an unmatched error that is an entity-too-large error or mentions a
too-large payload; the balance is untouched. -/
theorem c7_provider_error_statuses (env : Env) (req : GenReq) (db : Db)
    (img : String) (st : Option Nat) (msg : String) (ty : Option String)
    (himg : req.imageBase64 = some img) (hne : ¬ img = "")
    (hpr : jsFalsyStr req.prompt = false)
    (hkey : jsFalsyStr env.apiKey = false)
    (hlen : ¬ (stripDataUri img).length < 100)
    (hpath : getAuthenticatedUser env req.authHeader = none ∨
      ∃ uid c, getAuthenticatedUser env req.authHeader = some uid ∧
        db.credits = some c ∧ 1 ≤ c)
    (hg : env.gemini = .failure st msg ty) :
    (generateV3 env req db).status ∈ ([400, 413, 429, 500, 502, 503] : List Nat) ∧
    (generateV3 env req db).error = some (mapGeminiError msg ty).2 ∧
    (generateV3 env req db).db = db := by
  have himgf : jsFalsyStr (some img) = false := by simp [jsFalsyStr, hne]
  have hst : generateV3 env req db
      = { status := (mapGeminiError msg ty).1, error := some (mapGeminiError msg ty).2,
          db := db, providerCalled := true,
          creditReads := if (getAuthenticatedUser env req.authHeader).isSome then 1 else 0 } := by
    rcases hpath with hauth | ⟨uid, c, hauth, hc, hc1⟩
    · simp [generateV3, genV3Credits, genV3Sanitize, genV3Provider, himgf, himg,
        hpr, hkey, hauth, hg, hlen]
    · have hnl : ¬ c < 1 := by omega
      simp [generateV3, genV3Credits, genV3Sanitize, genV3Provider, himgf, himg,
        hpr, hkey, hauth, hc, hnl, hg, hlen]
  rw [hst]
  exact ⟨mapGeminiError_status_mem msg ty, rfl, rfl⟩

/-- C7 witness: a rate-limit style provider error is answered 503. -/
theorem c7_provider_error_statuses_witness :
    (mkEnv (.failure (some 429) "RESOURCE_EXHAUSTED" none) none true).gemini
      = .failure (some 429) "RESOURCE_EXHAUSTED" none ∧
    (generateV3 (mkEnv (.failure (some 429) "RESOURCE_EXHAUSTED" none) none true)
      wReqGuest (Db.mk (some 3))).status ∈ ([400, 413, 429, 500, 502, 503] : List Nat) := by
  refine ⟨by decide, ?_⟩
  exact (c7_provider_error_statuses (mkEnv (.failure (some 429) "RESOURCE_EXHAUSTED" none) none true)
    wReqGuest (Db.mk (some 3)) ("data:image/jpeg;base64," ++ wPayload)
    (some 429) "RESOURCE_EXHAUSTED" none
    (by decide) (by decide) (by decide) (by decide) (by decide)
    (Or.inl (by decide)) (by decide)).1

/-- C9 counterexample: the variant-1 generate handler has no length check
after stripping; a four-character payload behind a data-URI tag is sent
to the provider and answered 200, not rejected with 400. -/
theorem c9_short_payload_v1_cex :
    (generateV1 (mkEnv wOkGem none true)
      { imageBase64 := some "data:image/jpeg;base64,QUJD",
        prompt := some "p", authHeader := none }
      (Db.mk (some 3))).providerCalled = true ∧
    (generateV1 (mkEnv wOkGem none true)
      { imageBase64 := some "data:image/jpeg;base64,QUJD",
        prompt := some "p", authHeader := none }
      (Db.mk (some 3))).status = 200 ∧
    ¬ (generateV1 (mkEnv wOkGem none true)
      { imageBase64 := some "data:image/jpeg;base64,QUJD",
        prompt := some "p", authHeader := none }
      (Db.mk (some 3))).status = 400 := by
  decide

/-- C9 amended: the variant-3 handler strips the data-URI tag and answers
400 without invoking the provider when the remaining payload is shorter
than 100 characters; variant 1 strips at the first comma but performs no
length check and does invoke the provider. -/
theorem c9_short_payload_v3_400 (env : Env) (req : GenReq) (db : Db)
    (img : String)
    (himg : req.imageBase64 = some img) (hne : ¬ img = "")
    (hpr : jsFalsyStr req.prompt = false)
    (hkey : jsFalsyStr env.apiKey = false)
    (hpath : getAuthenticatedUser env req.authHeader = none ∨
      ∃ uid c, getAuthenticatedUser env req.authHeader = some uid ∧
        db.credits = some c ∧ 1 ≤ c)
    (hshort : (stripDataUri img).length < 100) :
    (generateV3 env req db).status = 400 ∧
    (generateV3 env req db).providerCalled = false ∧
    (generateV3 env req db).creditWrites = [] ∧
    (generateV3 env req db).db = db := by
  have himgf : jsFalsyStr (some img) = false := by simp [jsFalsyStr, hne]
  rcases hpath with hauth | ⟨uid, c, hauth, hc, hc1⟩
  · refine ⟨?_, ?_, ?_, ?_⟩ <;>
      simp [generateV3, genV3Credits, genV3Sanitize, himgf, himg, hpr, hkey,
        hauth, hshort]
  · have hnl : ¬ c < 1 := by omega
    refine ⟨?_, ?_, ?_, ?_⟩ <;>
      simp [generateV3, genV3Credits, genV3Sanitize, himgf, himg, hpr, hkey,
        hauth, hc, hnl, hshort]

/-- C9 witness: a concrete guest request with a short stripped payload is
rejected with 400 and no provider call. -/
theorem c9_short_payload_v3_400_witness :
    (stripDataUri "data:image/jpeg;base64,QUJD").length < 100 ∧
    (generateV3 (mkEnv wOkGem none true)
      { imageBase64 := some "data:image/jpeg;base64,QUJD",
        prompt := some "p", authHeader := none }
      (Db.mk (some 3))).status = 400 ∧
    (generateV3 (mkEnv wOkGem none true)
      { imageBase64 := some "data:image/jpeg;base64,QUJD",
        prompt := some "p", authHeader := none }
      (Db.mk (some 3))).providerCalled = false := by
  have h := c9_short_payload_v3_400 (mkEnv wOkGem none true)
    { imageBase64 := some "data:image/jpeg;base64,QUJD",
      prompt := some "p", authHeader := none }
    (Db.mk (some 3)) "data:image/jpeg;base64,QUJD"
    (by decide) (by decide) (by decide) (by decide) (Or.inl (by decide)) (by decide)
  exact ⟨by decide, h.1, h.2.1⟩

/-- A concrete paid checkout session fixture. -/
def wSess (ps : String) (amt : Int) : StripeSession :=
  { payment_status := ps, amount_total := amt }

/-- A concrete authenticated checkout request fixture. -/
def wCheckReq : CheckReq :=
  { sessionId := some "sess", authHeader := some "Bearer tok" }

/-- C2 counterexample: the variant-1 verify-checkout handler maps a paid
session of 999 cents to 50 added credits, not the 25 the claim states,
writing balance 60 over 10. -/
theorem c2_checkout_mapping_cex :
    (verifyCheckoutV1 (mkEnv wOkGem (some (wSess "paid" 999)) true)
      wCheckReq (Db.mk (some 10))).addedCredits = some 50 ∧
    ¬ (verifyCheckoutV1 (mkEnv wOkGem (some (wSess "paid" 999)) true)
      wCheckReq (Db.mk (some 10))).addedCredits = some 25 ∧
    (verifyCheckoutV1 (mkEnv wOkGem (some (wSess "paid" 999)) true)
      wCheckReq (Db.mk (some 10))).db.credits = some 60 := by
  decide

/-- C2 amended: the common variant-2 verify-checkout handler grants
exactly 5, 25, 50 or 100 credits for paid sessions of 399, 999, 1999 or
3499 cents and rejects a non-paid session with 400 and no write; the
variant-1 handler and server.js instead map 399, 999, 1999 and 2999
cents to 5, 50, 100 and 200 credits. -/
theorem c2_checkout_mapping_v2 (env : Env) (req : CheckReq) (db : Db)
    (uid : String) (b : Int) (s : StripeSession)
    (hauth : getAuthenticatedUser env req.authHeader = some uid)
    (hsid : jsFalsyStr req.sessionId = false)
    (hsess : env.session = some s)
    (hb : db.credits = some b)
    (hup : env.updateOk = true) :
    (s.payment_status = "paid" →
      (s.amount_total = 399 →
        (verifyCheckoutV2 env req db).addedCredits = some 5 ∧
        (verifyCheckoutV2 env req db).db.credits = some (b + 5)) ∧
      (s.amount_total = 999 →
        (verifyCheckoutV2 env req db).addedCredits = some 25 ∧
        (verifyCheckoutV2 env req db).db.credits = some (b + 25)) ∧
      (s.amount_total = 1999 →
        (verifyCheckoutV2 env req db).addedCredits = some 50 ∧
        (verifyCheckoutV2 env req db).db.credits = some (b + 50)) ∧
      (s.amount_total = 3499 →
        (verifyCheckoutV2 env req db).addedCredits = some 100 ∧
        (verifyCheckoutV2 env req db).db.credits = some (b + 100))) ∧
    (¬ s.payment_status = "paid" →
      (verifyCheckoutV2 env req db).status = 400 ∧
      (verifyCheckoutV2 env req db).addedCredits = none ∧
      (verifyCheckoutV2 env req db).creditWrites = [] ∧
      (verifyCheckoutV2 env req db).db = db) := by
  constructor
  · intro hp
    refine ⟨?_, ?_, ?_, ?_⟩ <;> intro ha <;> constructor <;>
      simp [verifyCheckoutV2, verifyCheckoutWith, priceMapV2, dbWrite, bne,
        hauth, hsid, hsess, hb, hup, hp, ha]
  · intro hp
    refine ⟨?_, ?_, ?_, ?_⟩ <;>
      simp [verifyCheckoutV2, verifyCheckoutWith, bne, hauth, hsid, hsess, hp]

/-- C2 witness: a concrete paid session of 999 cents adds 25 credits over
a balance of 10, and a concrete unpaid session is rejected with 400. -/
theorem c2_checkout_mapping_v2_witness :
    (wSess "paid" 999).payment_status = "paid" ∧
    (verifyCheckoutV2 (mkEnv wOkGem (some (wSess "paid" 999)) true)
      wCheckReq (Db.mk (some 10))).addedCredits = some 25 ∧
    (verifyCheckoutV2 (mkEnv wOkGem (some (wSess "paid" 999)) true)
      wCheckReq (Db.mk (some 10))).db.credits = some 35 ∧
    (verifyCheckoutV2 (mkEnv wOkGem (some (wSess "unpaid" 999)) true)
      wCheckReq (Db.mk (some 10))).status = 400 := by
  have h1 := ((c2_checkout_mapping_v2 (mkEnv wOkGem (some (wSess "paid" 999)) true)
    wCheckReq (Db.mk (some 10)) "uid" 10 (wSess "paid" 999)
    (by decide) (by decide) (by decide) (by decide) (by decide)).1
    (by decide)).2.1 (by decide)
  have h2 := (c2_checkout_mapping_v2 (mkEnv wOkGem (some (wSess "unpaid" 999)) true)
    wCheckReq (Db.mk (some 10)) "uid" 10 (wSess "unpaid" 999)
    (by decide) (by decide) (by decide) (by decide) (by decide)).2
    (by decide)
  exact ⟨by decide, h1.1, h1.2, h2.1⟩

/-- C10: a paid session whose amount matches none of the recognised
prices is granted zero credits: the variant-2 handler answers 200 with
success true and addedCredits zero, reports no error, and rewrites the
stored balance with its current value, leaving it unchanged. -/
theorem c10_unknown_amount_zero (env : Env) (req : CheckReq) (db : Db)
    (uid : String) (b : Int) (s : StripeSession)
    (hauth : getAuthenticatedUser env req.authHeader = some uid)
    (hsid : jsFalsyStr req.sessionId = false)
    (hsess : env.session = some s)
    (hb : db.credits = some b)
    (hup : env.updateOk = true)
    (hp : s.payment_status = "paid")
    (h1 : ¬ s.amount_total = 399) (h2 : ¬ s.amount_total = 999)
    (h3 : ¬ s.amount_total = 1999) (h4 : ¬ s.amount_total = 3499) :
    (verifyCheckoutV2 env req db).status = 200 ∧
    (verifyCheckoutV2 env req db).ok = true ∧
    (verifyCheckoutV2 env req db).addedCredits = some 0 ∧
    (verifyCheckoutV2 env req db).error = none ∧
    (verifyCheckoutV2 env req db).creditWrites = [b] ∧
    (verifyCheckoutV2 env req db).db.credits = some b := by
  refine ⟨?_, ?_, ?_, ?_, ?_, ?_⟩ <;>
    simp [verifyCheckoutV2, verifyCheckoutWith, priceMapV2, dbWrite, bne,
      hauth, hsid, hsess, hb, hup, hp, h1, h2, h3, h4]

/-- C10 witness: a concrete paid session of 1234 cents leaves balance 10
in place, rewriting it with itself, and reports zero added credits. -/
theorem c10_unknown_amount_zero_witness :
    (wSess "paid" 1234).amount_total = 1234 ∧
    (verifyCheckoutV2 (mkEnv wOkGem (some (wSess "paid" 1234)) true)
      wCheckReq (Db.mk (some 10))).addedCredits = some 0 ∧
    (verifyCheckoutV2 (mkEnv wOkGem (some (wSess "paid" 1234)) true)
      wCheckReq (Db.mk (some 10))).creditWrites = [10] ∧
    (verifyCheckoutV2 (mkEnv wOkGem (some (wSess "paid" 1234)) true)
      wCheckReq (Db.mk (some 10))).db.credits = some 10 := by
  have h := c10_unknown_amount_zero (mkEnv wOkGem (some (wSess "paid" 1234)) true)
    wCheckReq (Db.mk (some 10)) "uid" 10 (wSess "paid" 1234)
    (by decide) (by decide) (by decide) (by decide) (by decide) (by decide)
    (by decide) (by decide) (by decide) (by decide)
  exact ⟨by decide, h.2.2.1, h.2.2.2.2.1, h.2.2.2.2.2⟩

/-- C1 counterexample: the server.js generate handler pre-decrements the
balance and its catch block performs no refund for a thrown provider
error: an authenticated caller with balance 3 whose provider call fails
is answered 500 with balance 2, not the unchanged 3 the claim states. -/
theorem c1_server_no_refund_cex :
    (generateServer (mkEnv (.failure (some 503) "UNAVAILABLE" none) none true)
      wReqAuth (Db.mk (some 3))).status = 500 ∧
    (generateServer (mkEnv (.failure (some 503) "UNAVAILABLE" none) none true)
      wReqAuth (Db.mk (some 3))).db.credits = some 2 ∧
    ¬ (generateServer (mkEnv (.failure (some 503) "UNAVAILABLE" none) none true)
      wReqAuth (Db.mk (some 3))).db.credits = some 3 := by
  decide
